import Mathlib

/-!
Verification of the phone-clipboard synchronization core
(`usePhoneClipboard` in `src/packages/roster/src/hooks/usePhoneClipboard.ts`).

The hook is embedded shallowly. External collaborators (the low-level
clipboard writer `useClipboard`, the formatter, the toast renderer and the
error classifier) are out of scope per the specification; they appear here
as inputs: the formatted payload and statistics are free parameters, the
writer is a record carrying its observable fields and the behaviour of its
`copyToClipboard` call, and toasts are recorded as an event list.

Clipboard payload strings are modelled as lists of characters (`JSStr`) so
that truncation and length facts are provable; fixed message strings that
no claim inspects character by character stay Lean `String`s.
-/

namespace PhoneClipboard

/-- A JavaScript string holding clipboard payload text. -/
abbrev JSStr := List Char

/-- Error kinds of the external classifier (`ClipboardErrorType` in
`useClipboardError`); the closed taxonomy of the specification. -/
inductive ClipboardErrorType where
  | PERMISSION_DENIED
  | NOT_SUPPORTED
  | TRANSIENT
  | UNKNOWN
deriving DecidableEq, Repr

/-- A classified error as exposed by the writer (`clipboard.detailedError`). -/
structure ClipboardError where
  type : ClipboardErrorType
  message : String
  suggestedAction : String
deriving DecidableEq, Repr

/-- A value thrown by the write call: either a JavaScript `Error` carrying a
message, or any other thrown value. -/
inductive Thrown where
  | errorVal (message : String)
  | nonError
deriving DecidableEq, Repr

/-- How one invocation of `clipboard.copyToClipboard` completes: it either
returns a boolean success status or throws. -/
inductive WriteOutcome where
  | returns (success : Bool)
  | throws (e : Thrown)
deriving DecidableEq, Repr

/-- The observable state and behaviour of the external clipboard writer
(`useClipboard`): its exposed fields, plus the outcome of the write call
and the error fields as observed after that call completes. -/
structure Clipboard where
  isSupported : Bool
  isLoading : Bool
  outcome : WriteOutcome
  detailedError : Option ClipboardError
  error : Option String
deriving DecidableEq, Repr

/-- A domain entity; only the fields the hook reads. -/
structure Musician where
  id : String
  phone : Option String
deriving DecidableEq, Repr

/-- Default success message:
`Copied N phone number(s) to clipboard`. -/
def defaultSuccessMessage (count : Nat) : String :=
  "Copied " ++ toString count ++ " phone number" ++
    (if count ≠ 1 then "s" else "") ++ " to clipboard"

/-- The options record `UsePhoneClipboardOptions` together with whether a
`clearSelection` callback was supplied to the hook. -/
structure UsePhoneClipboardOptions where
  autoClearSelection : Bool := false
  successMessage : Nat → String := defaultSuccessMessage
  autoUpdateClipboard : Bool := false
  autoUpdateMinSelection : Nat := 1
  autoUpdateDebounce : Nat := 300
  hasClearSelection : Bool := true

/-- Toast notifications the hook can emit, identified by the toast calls in
the source (`showCopyLoading`, `showCopySuccess`, `showCopyError`,
`showPermissionDenied`, `showNotSupported`, and the auto-update success
`showToast` with shortened duration and fade animation). -/
inductive Toast where
  | copyLoading
  | copySuccess (count : Nat) (text : JSStr)
  | autoCopySuccess (count : Nat) (text : JSStr)
  | copyError (message : String) (suggestion : String)
  | permissionDenied
  | notSupported
deriving DecidableEq, Repr

/-- JavaScript `a || b` on a nullable string: the default replaces both
`null` and the empty (falsy) string. -/
def jsOr (o : Option String) (d : String) : String :=
  match o with
  | some s => if s = "" then d else s
  | none => d

/-- The result object returned by `copyPhoneNumbers`. -/
structure CopyResult where
  success : Bool
  message : String
  phoneCount : Nat
deriving DecidableEq, Repr

/-- One invocation of `copyPhoneNumbers`: its returned result, the toasts
emitted, whether the writer was invoked, whether the selection-clear
callback ran, and the value of `lastUpdatedRef` afterwards. -/
structure CopyEffects where
  result : CopyResult
  toasts : List Toast
  writerInvoked : Bool
  clearSelectionInvoked : Bool
  lastUpdatedAfter : JSStr
deriving DecidableEq, Repr

/-- Message taken from a caught thrown value:
`error instanceof Error ? error.message : unknown-error fallback`. -/
def thrownMessage : Thrown → String
  | Thrown.errorVal m => m
  | Thrown.nonError => "Unknown error occurred"

/-- `SelectionProjector`: the `selectedMusicians` memo, filtering the
collection by membership of the id in the selected set. -/
def selectMusicians (musicians : List Musician) (selectedIds : List String) :
    List Musician :=
  musicians.filter (fun m => selectedIds.contains m.id)

/-- The manual copy operation `copyPhoneNumbers`, transcribed from the
source. Inputs are the derived state the callback closes over
(`selectedMusicians`, `formattedPhoneNumbers`, `phoneStats.validPhones`),
the writer, and the current `lastUpdatedRef` value. -/
def copyPhoneNumbers (opts : UsePhoneClipboardOptions)
    (selectedMusicians : List Musician) (formattedPhoneNumbers : JSStr)
    (validPhones : Nat) (clipboard : Clipboard) (lastUpdated : JSStr) :
    CopyEffects :=
  if selectedMusicians.length = 0 then
    { result := { success := false, message := "No musicians selected",
                  phoneCount := 0 },
      toasts := [Toast.copyError "No musicians selected"
        "Please select some musicians first"],
      writerInvoked := false, clearSelectionInvoked := false,
      lastUpdatedAfter := lastUpdated }
  else if formattedPhoneNumbers = [] then
    { result := { success := false,
                  message := "No valid phone numbers found in selection",
                  phoneCount := 0 },
      toasts := [Toast.copyError "No valid phone numbers found"
        "Selected musicians don\x27t have valid phone numbers"],
      writerInvoked := false, clearSelectionInvoked := false,
      lastUpdatedAfter := lastUpdated }
  else
    match clipboard.outcome with
    | WriteOutcome.returns true =>
      { result := { success := true,
                    message := opts.successMessage validPhones,
                    phoneCount := validPhones },
        toasts := [Toast.copyLoading,
                   Toast.copySuccess validPhones formattedPhoneNumbers],
        writerInvoked := true,
        clearSelectionInvoked := opts.autoClearSelection && opts.hasClearSelection,
        lastUpdatedAfter := lastUpdated }
    | WriteOutcome.returns false =>
      { result := { success := false,
                    message := jsOr clipboard.error "Failed to copy to clipboard",
                    phoneCount := 0 },
        toasts := Toast.copyLoading ::
          (match clipboard.detailedError with
           | some e =>
             match e.type with
             | ClipboardErrorType.PERMISSION_DENIED => [Toast.permissionDenied]
             | ClipboardErrorType.NOT_SUPPORTED => [Toast.notSupported]
             | _ => [Toast.copyError e.message e.suggestedAction]
           | none => [Toast.copyError "Copy operation failed" "Please try again"]),
        writerInvoked := true, clearSelectionInvoked := false,
        lastUpdatedAfter := lastUpdated }
    | WriteOutcome.throws e =>
      { result := { success := false, message := thrownMessage e,
                    phoneCount := 0 },
        toasts := [Toast.copyLoading,
                   Toast.copyError (thrownMessage e)
                     "Please try again or copy manually"],
        writerInvoked := true, clearSelectionInvoked := false,
        lastUpdatedAfter := lastUpdated }

/-- State of the auto-sync machinery of one hook instance: the debounce
timer (`debounceTimeoutRef`, at most one, carrying the payload and valid
count its callback closed over), `lastUpdatedRef`, plus a log of the
clipboard writes performed and the toasts emitted by automatic syncs. -/
structure SyncState where
  timer : Option (JSStr × Nat)
  lastUpdated : JSStr
  writes : List JSStr
  toasts : List Toast
deriving DecidableEq, Repr

/-- Body of the auto-update `useEffect`, transcribed guard by guard: the
enabled/support guard returns untouched; past it the existing timeout is
cleared (`timer := none` in every later branch), then the
minimum-selection guard, the nonempty-payload and valid-count guard and
the `lastUpdatedRef` suppression guard may stop, else the debounce timer
is armed with the current payload and valid count. -/
def autoEffectBody (opts : UsePhoneClipboardOptions) (clipboard : Clipboard)
    (selectedCount : Nat) (formattedPhoneNumbers : JSStr) (validPhones : Nat)
    (s : SyncState) : SyncState :=
  if !opts.autoUpdateClipboard || !clipboard.isSupported then s
  else if selectedCount < opts.autoUpdateMinSelection then
    { s with timer := none }
  else if formattedPhoneNumbers = [] ∨ validPhones = 0 then
    { s with timer := none }
  else if s.lastUpdated = formattedPhoneNumbers then
    { s with timer := none }
  else { s with timer := some (formattedPhoneNumbers, validPhones) }

/-- The debounce callback, run when the armed timer fires: it performs the
write and, from the outcome, computes the new `lastUpdatedRef` value and
the toasts emitted. On success the ref is set to the written payload and a
subtle success toast shows; on a thrown failure a toast shows only for a
classified permission-denied or not-supported error; a returned failure
status takes no action. -/
def autoFireCallback (payload : JSStr) (validPhones : Nat)
    (clipboard : Clipboard) (lastUpdated : JSStr) : JSStr × List Toast :=
  match clipboard.outcome with
  | WriteOutcome.returns true =>
    (payload, [Toast.autoCopySuccess validPhones payload])
  | WriteOutcome.returns false => (lastUpdated, [])
  | WriteOutcome.throws _ =>
    match clipboard.detailedError with
    | some e =>
      match e.type with
      | ClipboardErrorType.PERMISSION_DENIED => (lastUpdated, [Toast.permissionDenied])
      | ClipboardErrorType.NOT_SUPPORTED => (lastUpdated, [Toast.notSupported])
      | _ => (lastUpdated, [])
    | none => (lastUpdated, [])

/-- Events driving the auto-sync state machine: a run of the effect (with
the inputs it reads), the armed timer firing after the debounce delay (the
write completing with the given writer behaviour), and the effect cleanup
that clears the timer. -/
inductive SyncEvent where
  | effectRun (clipboard : Clipboard) (selectedCount : Nat)
      (formattedPhoneNumbers : JSStr) (validPhones : Nat)
  | timerFire (clipboard : Clipboard)
  | cleanup

/-- One step of the auto-sync state machine. A `timerFire` with no armed
timer does nothing; with an armed timer it performs the write of the
captured payload and applies the callback outcome. -/
def syncStep (opts : UsePhoneClipboardOptions) (s : SyncState) :
    SyncEvent → SyncState
  | SyncEvent.effectRun cb n fmt vp => autoEffectBody opts cb n fmt vp s
  | SyncEvent.timerFire cb =>
    match s.timer with
    | none => s
    | some pv =>
      let r := autoFireCallback pv.1 pv.2 cb s.lastUpdated
      { timer := none, lastUpdated := r.1,
        writes := s.writes ++ [pv.1], toasts := s.toasts ++ r.2 }
  | SyncEvent.cleanup => { s with timer := none }

/-- The `getPreview` utility: empty payload gives the empty string, a
payload within `maxLength` is returned unchanged, and a longer payload is
cut to `maxLength - 3` characters with a three-character ellipsis marker
appended. -/
def getPreview (formattedPhoneNumbers : JSStr) (maxLength : Nat) : JSStr :=
  if formattedPhoneNumbers = [] then []
  else if formattedPhoneNumbers.length ≤ maxLength then formattedPhoneNumbers
  else formattedPhoneNumbers.take (maxLength - 3) ++ ['.', '.', '.']

/-- The `canCopy` memo. -/
def canCopy (selectedCount validPhones : Nat) (clipboard : Clipboard) : Bool :=
  decide (0 < selectedCount) && decide (0 < validPhones) && !clipboard.isLoading

/-- The armed debounce timer, when present, always carries a nonempty
payload (the arming guard rejects empty payloads). -/
def armedNonempty (s : SyncState) : Prop :=
  ∀ p v, s.timer = some (p, v) → p ≠ []

/-- A sample musician used by concrete witnesses. -/
def sampleMusician : Musician := { id := "m1", phone := some "555" }

/-- Options with auto-update enabled and the remaining defaults. -/
def autoOpts : UsePhoneClipboardOptions := { autoUpdateClipboard := true }

/-- A supported writer whose write returns success. -/
def supportedSuccess : Clipboard :=
  { isSupported := true, isLoading := false,
    outcome := WriteOutcome.returns true, detailedError := none,
    error := none }

/-- An unsupported writer. -/
def unsupportedWriter : Clipboard :=
  { isSupported := false, isLoading := false,
    outcome := WriteOutcome.returns true, detailedError := none,
    error := none }

/-- A classified permission-denied error as the classifier reports it. -/
def permissionDeniedError : ClipboardError :=
  { type := ClipboardErrorType.PERMISSION_DENIED,
    message := "Clipboard permission denied",
    suggestedAction := "Allow clipboard access in the browser settings" }

/-- A writer whose write returns a failure status while the classifier
reports a permission-denied error. -/
def permissionDeniedFailure : Clipboard :=
  { isSupported := true, isLoading := false,
    outcome := WriteOutcome.returns false,
    detailedError := some permissionDeniedError,
    error := some "Clipboard permission denied" }

/-- A writer whose write throws while the classifier reports a
permission-denied error. -/
def throwingPermissionDenied : Clipboard :=
  { isSupported := true, isLoading := false,
    outcome := WriteOutcome.throws Thrown.nonError,
    detailedError := some permissionDeniedError,
    error := none }

/-- The initial auto-sync state of a fresh hook instance: no timer armed,
`lastUpdatedRef` holding the empty string, nothing written or shown. -/
def initState : SyncState :=
  { timer := none, lastUpdated := [], writes := [], toasts := [] }

/-- Helper: a run of the effect body that passes every guard arms the
timer with the current payload and valid count, replacing whatever timer
was armed before. -/
theorem autoEffectBody_arms (opts : UsePhoneClipboardOptions)
    (cb : Clipboard) (n : Nat) (fmt : JSStr) (vp : Nat) (s : SyncState)
    (hen : opts.autoUpdateClipboard = true) (hsup : cb.isSupported = true)
    (hmin : opts.autoUpdateMinSelection ≤ n) (hfmt : fmt ≠ [])
    (hvp : vp ≠ 0) (hlast : s.lastUpdated ≠ fmt) :
    autoEffectBody opts cb n fmt vp s = { s with timer := some (fmt, vp) } := by
  have hguard : ¬(fmt = [] ∨ vp = 0) := by
    rintro (h | h)
    · exact hfmt h
    · exact hvp h
  simp [autoEffectBody, hen, hsup, Nat.not_lt.mpr hmin, hguard, hlast]

/-- Helper: the effect body never touches `lastUpdatedRef`. -/
theorem autoEffectBody_lastUpdated (opts : UsePhoneClipboardOptions)
    (cb : Clipboard) (n : Nat) (fmt : JSStr) (vp : Nat) (s : SyncState) :
    (autoEffectBody opts cb n fmt vp s).lastUpdated = s.lastUpdated := by
  unfold autoEffectBody
  split
  · rfl
  split
  · rfl
  split
  · rfl
  split
  · rfl
  · rfl

/-- Helper: after a run of the effect body the timer is unchanged, cleared,
or armed with the current (nonempty) payload and valid count. -/
theorem autoEffectBody_timer_shape (opts : UsePhoneClipboardOptions)
    (cb : Clipboard) (n : Nat) (fmt : JSStr) (vp : Nat) (s : SyncState) :
    (autoEffectBody opts cb n fmt vp s).timer = s.timer ∨
    (autoEffectBody opts cb n fmt vp s).timer = none ∨
    ((autoEffectBody opts cb n fmt vp s).timer = some (fmt, vp) ∧ fmt ≠ []) := by
  unfold autoEffectBody
  split
  · exact Or.inl rfl
  split
  · exact Or.inr (Or.inl rfl)
  split
  · exact Or.inr (Or.inl rfl)
  split
  · exact Or.inr (Or.inl rfl)
  · rename_i hguard _
    exact Or.inr (Or.inr ⟨rfl, fun hc => hguard (Or.inl hc)⟩)

/-- Helper: firing with no armed timer is a no-op. -/
theorem syncStep_fire_of_no_timer (opts : UsePhoneClipboardOptions)
    (s : SyncState) (cb : Clipboard) (h : s.timer = none) :
    syncStep opts s (SyncEvent.timerFire cb) = s := by
  simp [syncStep, h]

/-- Helper: on a successful write the callback returns the written payload
as the new `lastUpdatedRef` value. -/
theorem autoFireCallback_fst_of_success (p : JSStr) (v : Nat)
    (cb : Clipboard) (lu : JSStr) (h : cb.outcome = WriteOutcome.returns true) :
    (autoFireCallback p v cb lu).1 = p := by
  simp [autoFireCallback, h]

/-- Helper: on any write outcome other than returned success the callback
leaves `lastUpdatedRef` unchanged. -/
theorem autoFireCallback_fst_stable (p : JSStr) (v : Nat) (cb : Clipboard)
    (lu : JSStr) (h : cb.outcome ≠ WriteOutcome.returns true) :
    (autoFireCallback p v cb lu).1 = lu := by
  unfold autoFireCallback
  cases hout : cb.outcome with
  | returns b =>
    cases b
    · rfl
    · exact absurd hout h
  | throws e =>
    cases hde : cb.detailedError with
    | none => rfl
    | some err =>
      obtain ⟨ty, m, a⟩ := err
      cases ty <;> rfl

/-- Helper: `copyPhoneNumbers` never modifies `lastUpdatedRef`, whatever
branch it takes. -/
theorem copyPhoneNumbers_lastUpdated (opts : UsePhoneClipboardOptions)
    (sel : List Musician) (fmt : JSStr) (vp : Nat) (cb : Clipboard)
    (lu : JSStr) :
    (copyPhoneNumbers opts sel fmt vp cb lu).lastUpdatedAfter = lu := by
  unfold copyPhoneNumbers
  split
  · rfl
  split
  · rfl
  split <;> rfl

/-- Claim C1, counterexample: an automatic write that completes and reports
failure by returning `false`, while the classified error kind is
`PermissionDenied`, surfaces no notification — the toast log stays empty
even though the claim requires a notification for this kind on every way
the writer reports failure. -/
theorem c1_counterexample :
    syncStep autoOpts
      { timer := some (['5'], 1), lastUpdated := [], writes := [],
        toasts := [] }
      (SyncEvent.timerFire permissionDeniedFailure) =
      { timer := none, lastUpdated := [], writes := [['5']], toasts := [] } ∧
    permissionDeniedFailure.outcome = WriteOutcome.returns false ∧
    (permissionDeniedFailure.detailedError.map ClipboardError.type) =
      some ClipboardErrorType.PERMISSION_DENIED := ⟨rfl, rfl, rfl⟩

/-- Claim C1 as amended: for automatic writes, a failure reported by a
returned `false` status surfaces no notification regardless of the
classified kind, while a thrown failure surfaces a notification if and
only if the classified error of the writer is present with kind
`PermissionDenied` or `NotSupported`. -/
theorem c1_amended_auto_failure_surfacing (p : JSStr) (v : Nat)
    (cb : Clipboard) (lu : JSStr) :
    (cb.outcome = WriteOutcome.returns false →
      (autoFireCallback p v cb lu).2 = []) ∧
    (∀ e, cb.outcome = WriteOutcome.throws e →
      ((autoFireCallback p v cb lu).2 ≠ [] ↔
        ∃ err, cb.detailedError = some err ∧
          (err.type = ClipboardErrorType.PERMISSION_DENIED ∨
           err.type = ClipboardErrorType.NOT_SUPPORTED))) := by
  constructor
  · intro h
    simp [autoFireCallback, h]
  · intro e h
    cases hde : cb.detailedError with
    | none => simp [autoFireCallback, h, hde]
    | some err =>
      obtain ⟨ty, m, a⟩ := err
      cases ty <;> simp [autoFireCallback, h, hde]

/-- Witness for the amended C1: a thrown automatic failure with a
classified permission-denied error does surface a notification. -/
theorem c1_amended_witness :
    (autoFireCallback ['5'] 1 throwingPermissionDenied []).2 ≠ [] := by
  have h := (c1_amended_auto_failure_surfacing ['5'] 1
    throwingPermissionDenied []).2 Thrown.nonError rfl
  exact h.mpr ⟨_, rfl, Or.inl rfl⟩

/-- Claim C2: debounce coalescing. Arming with payload `p1` and then,
before the timer fires, re-running the effect with payload `p2` cancels
the first timer (the state machine holds at most one timer by
construction, and the second run replaces the first timer rather than
adding to it); when the surviving timer fires, exactly one write occurs
and it carries `p2`, never `p1`. -/
theorem c2_debounce_coalescing (opts : UsePhoneClipboardOptions)
    (s : SyncState) (cb1 cb2 cb3 : Clipboard) (n1 n2 : Nat)
    (p1 p2 : JSStr) (v1 v2 : Nat)
    (hen : opts.autoUpdateClipboard = true)
    (hs1 : cb1.isSupported = true) (hs2 : cb2.isSupported = true)
    (hn1 : opts.autoUpdateMinSelection ≤ n1)
    (hn2 : opts.autoUpdateMinSelection ≤ n2)
    (hp1 : p1 ≠ []) (hp2 : p2 ≠ []) (hv1 : v1 ≠ 0) (hv2 : v2 ≠ 0)
    (hl1 : s.lastUpdated ≠ p1) (hl2 : s.lastUpdated ≠ p2) :
    (syncStep opts s (SyncEvent.effectRun cb1 n1 p1 v1)).timer
      = some (p1, v1) ∧
    (syncStep opts (syncStep opts s (SyncEvent.effectRun cb1 n1 p1 v1))
        (SyncEvent.effectRun cb2 n2 p2 v2)).timer = some (p2, v2) ∧
    (syncStep opts
        (syncStep opts (syncStep opts s (SyncEvent.effectRun cb1 n1 p1 v1))
          (SyncEvent.effectRun cb2 n2 p2 v2))
        (SyncEvent.timerFire cb3)).writes = s.writes ++ [p2] := by
  have h1 : syncStep opts s (SyncEvent.effectRun cb1 n1 p1 v1) =
      { s with timer := some (p1, v1) } :=
    autoEffectBody_arms opts cb1 n1 p1 v1 s hen hs1 hn1 hp1 hv1 hl1
  have h2 : syncStep opts ({ s with timer := some (p1, v1) } : SyncState)
      (SyncEvent.effectRun cb2 n2 p2 v2) =
      { s with timer := some (p2, v2) } :=
    autoEffectBody_arms opts cb2 n2 p2 v2 _ hen hs2 hn2 hp2 hv2 hl2
  refine ⟨by rw [h1], by rw [h1, h2], ?_⟩
  rw [h1, h2]
  simp [syncStep]

/-- Witness for C2: from a fresh instance, effect runs with payloads `1`
then `2`, followed by the timer firing, write exactly the payload `2`. -/
theorem c2_debounce_coalescing_witness :
    (syncStep autoOpts
      (syncStep autoOpts
        (syncStep autoOpts initState
          (SyncEvent.effectRun supportedSuccess 1 ['1'] 1))
        (SyncEvent.effectRun supportedSuccess 2 ['2'] 2))
      (SyncEvent.timerFire supportedSuccess)).writes = [['2']] := by
  have h := c2_debounce_coalescing autoOpts initState supportedSuccess
    supportedSuccess supportedSuccess 1 2 ['1'] ['2'] 1 2 rfl rfl rfl
    (by decide) (by decide) (by decide) (by decide) (by decide) (by decide)
    (by decide) (by decide)
  simpa using h.2.2

/-- Claim C3: `lastUpdatedRef` (LastSyncedPayload) changes only when an
armed automatic write completes with returned success, in which case it
becomes the (nonempty) written payload — so it is never cleared; the
manual `copyPhoneNumbers` leaves it untouched on every path, and so do
effect runs, misfires and cleanup. -/
theorem c3_last_synced_payload (opts : UsePhoneClipboardOptions)
    (sel : List Musician) (fmt : JSStr) (vp : Nat) (cb : Clipboard)
    (lu : JSStr) (s : SyncState) (ev : SyncEvent)
    (hinv : armedNonempty s) :
    (copyPhoneNumbers opts sel fmt vp cb lu).lastUpdatedAfter = lu ∧
    armedNonempty (syncStep opts s ev) ∧
    ((syncStep opts s ev).lastUpdated = s.lastUpdated ∨
      ∃ p v cbf, ev = SyncEvent.timerFire cbf ∧ s.timer = some (p, v) ∧
        cbf.outcome = WriteOutcome.returns true ∧
        (syncStep opts s ev).lastUpdated = p ∧ p ≠ []) := by
  refine ⟨copyPhoneNumbers_lastUpdated opts sel fmt vp cb lu, ?_, ?_⟩
  · cases ev with
    | effectRun cbe m f v =>
      intro p pv hp
      simp only [syncStep] at hp
      rcases autoEffectBody_timer_shape opts cbe m f v s with hc | hc | ⟨hc, hf⟩
      · rw [hc] at hp
        exact hinv p pv hp
      · rw [hc] at hp
        cases hp
      · rw [hc] at hp
        obtain ⟨hpf, _⟩ := Prod.mk.injEq .. ▸ Option.some.injEq .. ▸ hp
        exact hpf ▸ hf
    | timerFire cbf =>
      cases htimer : s.timer with
      | none =>
        rw [syncStep_fire_of_no_timer opts s cbf htimer]
        exact hinv
      | some pv =>
        intro p v hp
        simp [syncStep, htimer] at hp
    | cleanup =>
      intro p v hp
      simp [syncStep] at hp
  · cases ev with
    | effectRun cbe m f v =>
      exact Or.inl (autoEffectBody_lastUpdated opts cbe m f v s)
    | timerFire cbf =>
      cases htimer : s.timer with
      | none =>
        exact Or.inl (by rw [syncStep_fire_of_no_timer opts s cbf htimer])
      | some pv =>
        obtain ⟨p, v⟩ := pv
        by_cases hout : cbf.outcome = WriteOutcome.returns true
        · refine Or.inr ⟨p, v, cbf, rfl, ?_, hout, ?_, hinv p v htimer⟩
          · rfl
          · simp [syncStep, htimer,
              autoFireCallback_fst_of_success p v cbf s.lastUpdated hout]
        · refine Or.inl ?_
          simp [syncStep, htimer,
            autoFireCallback_fst_stable p v cbf s.lastUpdated hout]
    | cleanup => exact Or.inl rfl

/-- Witness for C3: a successful manual copy leaves `lastUpdatedRef` at its
prior value, and cleanup from the fresh state preserves the armed-payload
invariant. -/
theorem c3_last_synced_payload_witness :
    (copyPhoneNumbers {} [sampleMusician] ['5'] 1 supportedSuccess
      ['7']).lastUpdatedAfter = ['7'] ∧
    armedNonempty (syncStep autoOpts initState SyncEvent.cleanup) := by
  have h := c3_last_synced_payload {} [sampleMusician] ['5'] 1
    supportedSuccess ['7'] initState SyncEvent.cleanup
    (fun p v hp => by simp [initState] at hp)
  exact ⟨h.1, h.2.1⟩

/-- Claim C4: suppression of redundant auto-writes. When auto-sync is
enabled and supported and the derived payload equals `lastUpdatedRef`, the
effect run leaves no armed timer (it clears any pre-existing one and arms
none), so a subsequent fire event performs no write. This holds for every
selection size, statistic and prior state. -/
theorem c4_suppression (opts : UsePhoneClipboardOptions) (cb : Clipboard)
    (n : Nat) (fmt : JSStr) (vp : Nat) (s : SyncState)
    (hen : opts.autoUpdateClipboard = true) (hsup : cb.isSupported = true)
    (heq : s.lastUpdated = fmt) :
    (syncStep opts s (SyncEvent.effectRun cb n fmt vp)).timer = none ∧
    (∀ cbf, syncStep opts (syncStep opts s (SyncEvent.effectRun cb n fmt vp))
        (SyncEvent.timerFire cbf) =
      syncStep opts s (SyncEvent.effectRun cb n fmt vp)) := by
  have htimer : (syncStep opts s (SyncEvent.effectRun cb n fmt vp)).timer
      = none := by
    simp [syncStep, autoEffectBody, hen, hsup, heq]
  exact ⟨htimer, fun cbf =>
    syncStep_fire_of_no_timer opts _ cbf htimer⟩

/-- Witness for C4: with a timer armed for the payload `5` and
`lastUpdatedRef` already holding `5`, the effect run clears the timer and
arms nothing. -/
theorem c4_suppression_witness :
    (syncStep autoOpts
      { timer := some (['5'], 1), lastUpdated := ['5'], writes := [],
        toasts := [] }
      (SyncEvent.effectRun supportedSuccess 1 ['5'] 1)).timer = none :=
  (c4_suppression autoOpts supportedSuccess 1 ['5'] 1
    { timer := some (['5'], 1), lastUpdated := ['5'], writes := [],
      toasts := [] } rfl rfl rfl).1

/-- Claim C10: support gating differs by trigger origin. An effect run
with an unsupported writer is a complete no-op (arms nothing), while the
manual copy ignores `isSupported` entirely: its outcome is unchanged under
any value of that flag, and it invokes the writer whenever its two
preconditions pass even though the writer is unsupported. -/
theorem c10_support_gating (opts : UsePhoneClipboardOptions) (s : SyncState)
    (cb : Clipboard) (n : Nat) (fmt : JSStr) (vp : Nat)
    (sel : List Musician) (lu : JSStr) (hns : cb.isSupported = false) :
    syncStep opts s (SyncEvent.effectRun cb n fmt vp) = s ∧
    (∀ sup : Bool,
      copyPhoneNumbers opts sel fmt vp { cb with isSupported := sup } lu =
        copyPhoneNumbers opts sel fmt vp cb lu) ∧
    (sel ≠ [] → fmt ≠ [] →
      (copyPhoneNumbers opts sel fmt vp cb lu).writerInvoked = true) := by
  refine ⟨by simp [syncStep, autoEffectBody, hns], fun sup => rfl, ?_⟩
  intro hsel hfmt
  have hlen : ¬ sel.length = 0 := by simpa using hsel
  unfold copyPhoneNumbers
  rw [if_neg hlen, if_neg hfmt]
  split <;> rfl

/-- Witness for C10: with the unsupported writer, the effect run from the
fresh state changes nothing, yet a manual copy of one musician still
invokes the writer. -/
theorem c10_support_gating_witness :
    syncStep autoOpts initState
      (SyncEvent.effectRun unsupportedWriter 1 ['5'] 1) = initState ∧
    (copyPhoneNumbers {} [sampleMusician] ['5'] 1 unsupportedWriter
      []).writerInvoked = true := by
  have h := c10_support_gating autoOpts initState unsupportedWriter 1 ['5'] 1
    [sampleMusician] [] rfl
  exact ⟨h.1, h.2.2 (by simp) (by simp)⟩

/-- Claim C5: with an empty selected subset, `copyPhoneNumbers` fails with
message `No musicians selected` (the spec placeholder instantiated at the
musician entity), item count zero, emits the selection-empty error toast,
and never invokes the writer, for every option set, payload, statistic,
writer state and `lastUpdatedRef` value. -/
theorem c5_empty_selection (opts : UsePhoneClipboardOptions) (fmt : JSStr)
    (vp : Nat) (cb : Clipboard) (lu : JSStr) :
    copyPhoneNumbers opts [] fmt vp cb lu =
      { result := { success := false, message := "No musicians selected",
                    phoneCount := 0 },
        toasts := [Toast.copyError "No musicians selected"
          "Please select some musicians first"],
        writerInvoked := false, clearSelectionInvoked := false,
        lastUpdatedAfter := lu } := rfl

/-- Claim C6: when the write call inside the manual copy throws, the
exception is absorbed: the writer was invoked, exactly one error toast is
emitted after the loading toast (carrying the caught message, or the
generic fallback when the thrown value is not an `Error`), and the result
is failure with that message and item count zero. -/
theorem c6_thrown_in_manual_copy (opts : UsePhoneClipboardOptions)
    (sel : List Musician) (fmt : JSStr) (vp : Nat) (cb : Clipboard)
    (lu : JSStr) (e : Thrown) (hsel : sel ≠ []) (hfmt : fmt ≠ [])
    (hout : cb.outcome = WriteOutcome.throws e) :
    copyPhoneNumbers opts sel fmt vp cb lu =
      { result := { success := false, message := thrownMessage e,
                    phoneCount := 0 },
        toasts := [Toast.copyLoading,
                   Toast.copyError (thrownMessage e)
                     "Please try again or copy manually"],
        writerInvoked := true, clearSelectionInvoked := false,
        lastUpdatedAfter := lu } := by
  have hlen : sel.length ≠ 0 := by simpa using hsel
  simp [copyPhoneNumbers, hlen, hfmt, hout]

/-- Witness for C6 at a concrete state: one musician selected, a one-digit
payload, the write throwing `Error("boom")`. -/
theorem c6_thrown_in_manual_copy_witness :
    copyPhoneNumbers {} [{ id := "m1", phone := some "555" }] ['5'] 1
      { isSupported := true, isLoading := false,
        outcome := WriteOutcome.throws (Thrown.errorVal "boom"),
        detailedError := none, error := none } [] =
      { result := { success := false, message := "boom", phoneCount := 0 },
        toasts := [Toast.copyLoading,
                   Toast.copyError "boom" "Please try again or copy manually"],
        writerInvoked := true, clearSelectionInvoked := false,
        lastUpdatedAfter := [] } :=
  c6_thrown_in_manual_copy {} [{ id := "m1", phone := some "555" }] ['5'] 1
    { isSupported := true, isLoading := false,
      outcome := WriteOutcome.throws (Thrown.errorVal "boom"),
      detailedError := none, error := none } [] (Thrown.errorVal "boom")
    (by simp) (by simp) rfl

/-- Claim C7: a payload strictly longer than `maxLength` is truncated to
`maxLength - 3` characters with the ellipsis marker appended; in
particular a 150-character payload previewed at `maxLength = 100` yields a
100-character string ending in the marker whose first 97 characters are
the first 97 characters of the payload. -/
theorem c7_preview_truncation (fmt : JSStr) (maxLength : Nat)
    (hlong : maxLength < fmt.length) :
    getPreview fmt maxLength = fmt.take (maxLength - 3) ++ ['.', '.', '.'] ∧
    (fmt.length = 150 → maxLength = 100 →
      (getPreview fmt maxLength).length = 100 ∧
      (getPreview fmt maxLength).take 97 = fmt.take 97 ∧
      getPreview fmt maxLength = fmt.take 97 ++ ['.', '.', '.']) := by
  have hne : fmt ≠ [] := by
    intro h
    rw [h] at hlong
    simp at hlong
  have hnle : ¬ fmt.length ≤ maxLength := Nat.not_le.mpr hlong
  have hmain : getPreview fmt maxLength =
      fmt.take (maxLength - 3) ++ ['.', '.', '.'] := by
    simp [getPreview, hne, hnle]
  refine ⟨hmain, fun h150 h100 => ?_⟩
  subst h100
  have htk : (fmt.take 97).length = 97 := by
    rw [List.length_take]
    omega
  have hform : getPreview fmt 100 = fmt.take 97 ++ ['.', '.', '.'] := by
    simpa using hmain
  refine ⟨?_, ?_, hform⟩
  · rw [hform, List.length_append, htk]
    simp
  · rw [hform]
    exact List.take_left' htk

/-- Witness for C7 on a concrete 150-character payload made of the digit
five, previewed at length 100. -/
theorem c7_preview_truncation_witness :
    getPreview (List.replicate 150 '5') 100 =
      (List.replicate 150 '5').take 97 ++ ['.', '.', '.'] ∧
    (getPreview (List.replicate 150 '5') 100).length = 100 := by
  have h := c7_preview_truncation (List.replicate 150 '5') 100 (by simp)
  exact ⟨h.1, (h.2 (by simp) rfl).1⟩

/-- Claim C9: edge behaviour of `getPreview`: the empty payload previews to
the empty string for every `maxLength`; a payload of length at most
`maxLength` is returned unchanged with no marker; a longer payload always
previews to exactly `max maxLength 3` characters; and when `maxLength < 3`
the preview of a longer payload is the bare three-character marker, which
exceeds `maxLength`. -/
theorem c9_preview_edges (fmt : JSStr) (maxLength : Nat) :
    (fmt = [] → getPreview fmt maxLength = []) ∧
    (fmt.length ≤ maxLength → getPreview fmt maxLength = fmt) ∧
    (maxLength < fmt.length →
      (getPreview fmt maxLength).length = max maxLength 3) ∧
    (maxLength < 3 → maxLength < fmt.length →
      getPreview fmt maxLength = ['.', '.', '.'] ∧
      maxLength < (getPreview fmt maxLength).length) := by
  refine ⟨fun h => by simp [getPreview, h], fun h => ?_, fun h => ?_, fun h3 h => ?_⟩
  · by_cases hne : fmt = []
    · simp [getPreview, hne]
    · simp [getPreview, hne, h]
  · have hne : fmt ≠ [] := by
      intro hc
      rw [hc] at h
      simp at h
    have hnle : ¬ fmt.length ≤ maxLength := Nat.not_le.mpr h
    rw [getPreview, if_neg hne, if_neg hnle, List.length_append,
      List.length_take]
    simp
    omega
  · have hne : fmt ≠ [] := by
      intro hc
      rw [hc] at h
      simp at h
    have hnle : ¬ fmt.length ≤ maxLength := Nat.not_le.mpr h
    have hz : maxLength - 3 = 0 := by omega
    have hform : getPreview fmt maxLength = ['.', '.', '.'] := by
      rw [getPreview, if_neg hne, if_neg hnle, hz]
      simp
    exact ⟨hform, by rw [hform]; simpa using h3⟩

/-- Witness for C9 at concrete inputs: a four-character payload previewed
at `maxLength = 2` is the bare marker, of length `max 2 3 = 3`, exceeding
`maxLength`; the same payload at `maxLength = 4` is unchanged. -/
theorem c9_preview_edges_witness :
    getPreview ['1', '2', '3', '4'] 2 = ['.', '.', '.'] ∧
    (getPreview ['1', '2', '3', '4'] 2).length = max 2 3 ∧
    getPreview ['1', '2', '3', '4'] 4 = ['1', '2', '3', '4'] := by
  have h2 := c9_preview_edges ['1', '2', '3', '4'] 2
  have h4 := c9_preview_edges ['1', '2', '3', '4'] 4
  exact ⟨(h2.2.2.2 (by decide) (by decide)).1, h2.2.2.1 (by decide),
    h4.2.1 (by decide)⟩

/-- Claim C8: manual copy is idempotent under an always-succeeding writer:
with the same nonempty subset and nonempty payload, two successive
`copyPhoneNumbers` calls (the second starting from the `lastUpdatedRef`
the first left behind) both succeed with the identical item count, equal
to the valid-phone count of the subset. -/
theorem c8_manual_copy_idempotent (opts : UsePhoneClipboardOptions)
    (sel : List Musician) (fmt : JSStr) (vp : Nat) (cb : Clipboard)
    (lu : JSStr) (hsel : sel ≠ []) (hfmt : fmt ≠ [])
    (hsucc : cb.outcome = WriteOutcome.returns true) :
    (copyPhoneNumbers opts sel fmt vp cb lu).result.success = true ∧
    (copyPhoneNumbers opts sel fmt vp cb
      (copyPhoneNumbers opts sel fmt vp cb lu).lastUpdatedAfter).result.success
      = true ∧
    (copyPhoneNumbers opts sel fmt vp cb lu).result.phoneCount =
      (copyPhoneNumbers opts sel fmt vp cb
        (copyPhoneNumbers opts sel fmt vp cb lu).lastUpdatedAfter).result.phoneCount ∧
    (copyPhoneNumbers opts sel fmt vp cb lu).result.phoneCount = vp := by
  have hlen : sel.length ≠ 0 := by simpa using hsel
  simp [copyPhoneNumbers, hlen, hfmt, hsucc]

/-- Witness for C8 at a concrete state: one musician, payload `5`,
writer returning success. -/
theorem c8_manual_copy_idempotent_witness :
    (copyPhoneNumbers {} [{ id := "m1", phone := some "555" }] ['5'] 1
      { isSupported := true, isLoading := false,
        outcome := WriteOutcome.returns true,
        detailedError := none, error := none } []).result.success = true ∧
    (copyPhoneNumbers {} [{ id := "m1", phone := some "555" }] ['5'] 1
      { isSupported := true, isLoading := false,
        outcome := WriteOutcome.returns true,
        detailedError := none, error := none } []).result.phoneCount = 1 := by
  have h := c8_manual_copy_idempotent {} [{ id := "m1", phone := some "555" }]
    ['5'] 1
    { isSupported := true, isLoading := false,
      outcome := WriteOutcome.returns true,
      detailedError := none, error := none } [] (by simp) (by simp) rfl
  exact ⟨h.1, h.2.2.2⟩

end PhoneClipboard
